import Mathlib

set_option linter.unusedVariables false

/-!
Shallow embedding of the Windows interface registry and route resolution
engine of scapy (src/scapy/arch/windows/__init__.py): adapter record
normalisation, the NetworkInterface entity and its update procedure, the
interface registry lookups, the wireless capability layer, and the IPv4/IPv6
route table builders.  External collaborators (adapter enumeration, forward
table queries, the helper process, pcap device listing, address textification
and RFC-3484 candidate selection) are passed in as explicit inputs or
function parameters, as the specification treats them as black boxes.
-/

/-- Modelled from the spec: the well-known loopback interface name
(scapy.consts.LOOPBACK_NAME, defined outside the sources under
verification). Its concrete value is irrelevant to the theorems. -/
def LOOPBACK_NAME : String := "Npcap Loopback Adapter"

/-- Python substring test (the `in` operator on strings). -/
def strContainsSubstr (hay needle : String) : Bool :=
  if needle.isEmpty then true else (hay.splitOn needle).length > 1

/-- Python str.endswith over the underlying character lists. -/
def str_endsWith (s suffix : String) : Bool :=
  decide (suffix.toList = s.toList.drop (s.toList.length - suffix.toList.length))

/-- Python membership test of a single character in a string. -/
def str_contains (s : String) (c : Char) : Bool :=
  s.toList.contains c

/-- Python str.upper over the underlying character list. -/
def str_toUpper (s : String) : String :=
  String.mk (s.toList.map Char.toUpper)

/-- Python str.lower over the underlying character list. -/
def str_toLower (s : String) : String :=
  String.mk (s.toList.map Char.toLower)

/-- Left-to-right non-overlapping replacement over character lists, with a
structural fuel argument (one unit per consumed character). -/
def replace_aux : Nat → List Char → List Char → List Char → List Char
  | 0, l, _, _ => l
  | _ + 1, [], _, _ => []
  | n + 1, c :: rest, pat, rep =>
    if pat ≠ [] ∧ pat = (c :: rest).take pat.length then
      rep ++ replace_aux n ((c :: rest).drop pat.length) pat rep
    else c :: replace_aux n rest pat rep

/-- Python str.replace (all occurrences, left to right). -/
def str_replace (s pat rep : String) : String :=
  String.mk (replace_aux s.toList.length s.toList pat.toList rep.toList)

/-- One hexadecimal digit character. -/
def hexDigit (n : Nat) : Char :=
  "0123456789abcdef".toList.getD (n % 16) '0'

/-- Two-digit lowercase hexadecimal rendering of a byte. -/
def hex2 (n : Nat) : String :=
  String.mk [hexDigit (n / 16 % 16), hexDigit (n % 16)]

/-- Modelled from the spec: scapy.utils.str2mac (not part of the sources
under verification), the canonical colon-hex rendering of a byte string. -/
def str2mac (bs : List Nat) : String :=
  String.intercalate ":" (bs.map hex2)

/-- get_windows_if_list._get_mac: physical address normalisation of a raw
adapter record, given the physical-address byte list and the reported
physical-address length. -/
def _get_mac (physical_address : List Nat) (physical_address_length : Nat) : String :=
  if physical_address_length ≠ 6 then ""
  else str2mac (physical_address.take 6)

/-- The dnet-style dictionary handed to NetworkInterface.update
(as produced by get_windows_if_list or synthesized in load). -/
structure IfData where
  netid : Option String
  name : String
  description : String
  win_index : Int
  guid : String
  mac : String
  ipv4_metric : Nat
  ipv6_metric : Nat
  ips : List String
  invalid : Option Bool
deriving DecidableEq

/-- A network interface of the local host (class NetworkInterface).
Fields default to the values set in the Python constructor. -/
structure NetworkInterface where
  name : String := ""
  ip : Option String := none
  mac : String := ""
  pcap_name : Option String := none
  description : String := ""
  invalid : Bool := false
  raw80211 : Option Bool := none
  cache_mode : Option Bool := none
  ipv4_metric : Nat := 0
  ipv6_metric : Nat := 0
  ips : List String := []
  win_index : Int := 0
  guid : String := ""
deriving DecidableEq

def NetworkInterface.is_invalid (i : NetworkInterface) : Bool :=
  i.invalid

/-- NetworkInterface._update_pcapdata: scan the capture-subsystem device
names (get_if_list) for one ending with this interface identifier; record
it, or mark the interface invalid when none matches. -/
def NetworkInterface._update_pcapdata (devices : List String)
    (i : NetworkInterface) : NetworkInterface :=
  if i.is_invalid then i
  else
    match devices.find? (fun d => str_endsWith d i.guid) with
    | some d => { i with pcap_name := some d }
    | none => { i with invalid := true }

/-- NetworkInterface.update: refresh the entity from a raw record.
use_npcap stands for conf.use_npcap and devices for get_if_list(). -/
def NetworkInterface.update (use_npcap : Bool) (devices : List String)
    (i : NetworkInterface) (data : IfData) : NetworkInterface :=
  let i1 : NetworkInterface :=
    { i with
      name := if data.netid = some LOOPBACK_NAME then LOOPBACK_NAME else data.name
      description := data.description
      win_index := data.win_index
      guid := data.guid
      mac := data.mac
      ipv4_metric := data.ipv4_metric
      ipv6_metric := data.ipv6_metric
      ips := data.ips
      invalid := data.invalid.getD i.invalid }
  let i2 := i1._update_pcapdata devices
  if i2.name = LOOPBACK_NAME ∧ use_npcap = true then
    { i2 with mac := "00:00:00:00:00:00", ip := some "127.0.0.1" }
  else
    let i3 :=
      match i2.ips.find? (fun s => !(str_contains s ':')) with
      | some x => { i2 with ip := some x }
      | none => i2
    if (i3.ip = none ∨ i3.ip = some "") ∧ i3.name = LOOPBACK_NAME then
      { i3 with ip := some "127.0.0.1" }
    else i3

/-- NetworkInterface(data): construct a fresh entity and update it. -/
def NetworkInterface.ofData (use_npcap : Bool) (devices : List String)
    (data : IfData) : NetworkInterface :=
  NetworkInterface.update use_npcap devices {} data

/-- The interface registry (NetworkInterfaceDict together with the
scapy.consts.LOOPBACK_INTERFACE reference used by dev_from_index):
an insertion-ordered mapping from adapter identifier to entity, plus the
well-known loopback reference when one is set to a NetworkInterface. -/
structure Registry where
  data : List (String × NetworkInterface)
  loopback : Option NetworkInterface

/-- The values of the registry in iteration (insertion) order. -/
def Registry.values (r : Registry) : List NetworkInterface :=
  r.data.map Prod.snd

/-- NetworkInterfaceDict.dev_from_name: first entry whose name or
description equals the argument, else a ValueError. -/
def Registry.dev_from_name (r : Registry) (name : String) :
    Except String NetworkInterface :=
  match r.values.find? (fun x => x.name == name || x.description == name) with
  | some iface => .ok iface
  | none => .error ("Unknown network interface " ++ name)

/-- NetworkInterfaceDict.dev_from_index: first entry with the given
numeric index; on a miss, index 1 falls back to the well-known loopback
interface when set, else a ValueError. -/
def Registry.dev_from_index (r : Registry) (if_index : Int) :
    Except String NetworkInterface :=
  match r.values.find? (fun x => x.win_index == if_index) with
  | some iface => .ok iface
  | none =>
    if if_index = 1 then
      match r.loopback with
      | some lb => .ok lb
      | none => .error ("Unknown network interface index " ++ toString if_index)
    else .error ("Unknown network interface index " ++ toString if_index)

/-- pcapname: resolve an interface entity or a logical name to the pcap
capture-device name.  use_pcap stands for conf.use_pcap. -/
def pcapname (use_pcap : Bool) (r : Registry)
    (dev : NetworkInterface ⊕ String) : Except String (Option String) :=
  match dev with
  | .inl d => if d.is_invalid then .ok none else .ok d.pcap_name
  | .inr s =>
    match r.dev_from_name s with
    | .ok iface => .ok iface.pcap_name
    | .error e => if use_pcap then .ok none else .error e

/-! ## Wireless capability layer -/

/-- Global configuration surrounding the wireless capability layer:
conf.use_npcap and the npcap Dot11Adapters registry value (None when the
registry key is missing, i.e. npcap is not 802.11 enabled). -/
structure WifiConf where
  use_npcap : Bool
  dot11_adapters : Option String
deriving DecidableEq

/-- The two exception kinds the capability check can raise: OSError when
Npcap is not the active backend, Scapy_Exception when the interface does
not support raw 802.11. -/
inductive CapError where
  | osError
  | scapyException
deriving DecidableEq

/-- NetworkInterface._check_npcap_requirement.  Errors carry the interface
state at raise time, since raw80211 may have been cached before raising. -/
def NetworkInterface._check_npcap_requirement (cfg : WifiConf)
    (i : NetworkInterface) : Except (CapError × NetworkInterface) NetworkInterface :=
  if cfg.use_npcap = false then .error (.osError, i)
  else
    let i1 :=
      if i.raw80211 = none then
        { i with raw80211 := some (match cfg.dot11_adapters with
            | none => false
            | some d => strContainsSubstr (str_toLower d) (str_toLower i.guid)) }
      else i
    if i1.raw80211 = some true then .ok i1 else .error (.scapyException, i1)

/-- NetworkInterface.mode: capability check, then one helper-process query
whose output is the parameter helper_mode. -/
def NetworkInterface.mode (cfg : WifiConf) (helper_mode : String)
    (i : NetworkInterface) :
    Except (CapError × NetworkInterface) (String × NetworkInterface) :=
  match i._check_npcap_requirement cfg with
  | .error e => .error e
  | .ok i1 => .ok (helper_mode, i1)

/-- NetworkInterface.ismonitor.  The result carries the updated interface
and the number of helper-process queries issued by this call. -/
def NetworkInterface.ismonitor (cfg : WifiConf) (helper_mode : String)
    (i : NetworkInterface) :
    Except (CapError × NetworkInterface) (Bool × NetworkInterface × Nat) :=
  match i.cache_mode with
  | some b => .ok (b, i, 0)
  | none =>
    match i.mode cfg helper_mode with
    | .ok (m, i1) =>
      let res := m == "monitor"
      .ok (res, { i1 with cache_mode := some res }, 1)
    | .error (.scapyException, i1) => .ok (false, i1, 0)
    | .error (.osError, i1) => .error (.osError, i1)

/-- The fixed integer-to-mode table of NetworkInterface.setmode. -/
def _modes (n : Int) : String :=
  if n = 0 then "managed"
  else if n = 1 then "monitor"
  else if n = 2 then "master"
  else if n = 3 then "wfd_device"
  else if n = 4 then "wfd_owner"
  else if n = 5 then "wfd_client"
  else "unknown"

/-- NetworkInterface.setmode: capability check, then one helper-process set
command; helper_set maps (key, value) to the success boolean of the
external command. -/
def NetworkInterface.setmode (cfg : WifiConf) (helper_set : String → String → Bool)
    (mode : String ⊕ Int) (i : NetworkInterface) :
    Except (CapError × NetworkInterface) (Bool × NetworkInterface × Nat) :=
  match i._check_npcap_requirement cfg with
  | .error e => .error e
  | .ok i1 =>
    let m := match mode with
      | .inl s => s
      | .inr n => _modes n
    .ok (helper_set "mode" m, i1, 1)

/-- NetworkInterface.setmonitor: delegate to setmode and update the mode
cache to the requested intent. -/
def NetworkInterface.setmonitor (cfg : WifiConf) (helper_set : String → String → Bool)
    (enable : Bool) (i : NetworkInterface) :
    Except (CapError × NetworkInterface) (Bool × NetworkInterface × Nat) :=
  if enable then
    match i.setmode cfg helper_set (.inl "monitor") with
    | .error e => .error e
    | .ok (res, i1, q) => .ok (res, { i1 with cache_mode := some res }, q)
  else
    match i.setmode cfg helper_set (.inl "managed") with
    | .error e => .error e
    | .ok (res, i1, q) => .ok (res, { i1 with cache_mode := some (!res) }, q)

/-! ## Route table builders -/

/-- A locally assigned IPv6 address as returned by in6_getifaddr:
(address, scope, owning interface). -/
abbrev LifAddr := String × Nat × NetworkInterface

/-- A record of the legacy GetIpForwardTable call (v1 builder). -/
structure FwdRow where
  ifIndex : Int
  dest : Nat
  netmask : Nat
  nextHopRaw : Nat
  metric : Nat
deriving DecidableEq

/-- A record of the modern GetIpForwardTable2 call: raw sockaddr bytes for
the destination and next hop, plus interface index and metric. -/
structure Fwd2Row where
  ifIndex : Int
  dest_bytes : List Nat
  next_hop_bytes : List Nat
  metric : Nat
deriving DecidableEq

/-- An entry of a built routing table: the IPv4 shape
(destination, netmask, next hop, iface, source IP, metric) or the IPv6
shape (destination, netmask length, next hop, iface, candidate set,
metric). -/
inductive RouteEntry where
  | v4 (dest : Nat) (netmask : Nat) (nexthop : String) (iface : NetworkInterface)
       (ip : Option String) (metric : Nat)
  | v6 (dpref : String) (dp : Nat) (nh : String) (iface : NetworkInterface)
       (cset : List String) (metric : Nat)
deriving DecidableEq

/-- The owning interface of a route entry. -/
def RouteEntry.iface : RouteEntry → NetworkInterface
  | .v4 _ _ _ i _ _ => i
  | .v6 _ _ _ i _ _ => i

/-- The effective metric of a route entry. -/
def RouteEntry.metric : RouteEntry → Nat
  | .v4 _ _ _ _ _ m => m
  | .v6 _ _ _ _ _ m => m

/-- Python bytes.rstrip of zero bytes. -/
def rstrip_zero (bs : List Nat) : List Nat :=
  (bs.reverse.dropWhile (fun b => b == 0)).reverse

/-- The helper _extract_ip_netmask of _read_routes_c: textify the address bytes via the
inet_ntop collaborator and derive the netmask length from the trailing
zero bytes. -/
def _extract_ip_netmask (ntop : List Nat → String) (ip_len : Nat)
    (bs : List Nat) : String × Nat :=
  let netmask := (ip_len - (bs.length - (rstrip_zero bs).length)) * 8
  (ntop bs, netmask)

/-- The function _append_route6: loopback and candidate-source-address handling for one
IPv6 route.  csel is the construct_source_candidate_set collaborator. -/
def _append_route6 (csel : String → Nat → List LifAddr → List String)
    (routes : List RouteEntry) (dpref : String) (dp : Nat) (nh : String)
    (iface : NetworkInterface) (lifaddr : List LifAddr) (metric : Nat) :
    List RouteEntry :=
  if iface.name = LOOPBACK_NAME ∧ dpref = "::" then routes
  else
    let cset : List String :=
      if iface.name = LOOPBACK_NAME then ["::1"]
      else csel dpref dp (lifaddr.filter (fun x => x.2.2 == iface))
    if cset.isEmpty then routes
    else routes ++ [RouteEntry.v6 dpref dp nh iface cset metric]

/-- The body of the _read_routes_c_v1 loop for one forward-table record.
extract_ip is the inet_ntop-of-packed-dword collaborator. -/
def _route4_v1_step (extract_ip : Nat → String) (r : Registry)
    (routes : List RouteEntry) (route : FwdRow) : List RouteEntry :=
  let nexthop := extract_ip route.nextHopRaw
  match r.dev_from_index route.ifIndex with
  | .error _ => routes
  | .ok iface =>
    if iface.ip = some "0.0.0.0" then routes
    else routes ++ [RouteEntry.v4 route.dest route.netmask nexthop iface iface.ip
        (route.metric + iface.ipv4_metric)]

/-- The builder _read_routes_c_v1: the legacy IPv4 builder over a GetIpForwardTable
snapshot. -/
def _read_routes_c_v1 (extract_ip : Nat → String) (r : Registry)
    (table : List FwdRow) : List RouteEntry :=
  table.foldl (_route4_v1_step extract_ip r) []

/-- The body of the _read_routes_c loop for one forward-table record. -/
def _route2_step (ipv6 : Bool) (ntop : List Nat → String)
    (atol : String → Nat) (itom : Nat → Nat)
    (csel : String → Nat → List LifAddr → List String) (r : Registry)
    (lifaddr : List LifAddr) (routes : List RouteEntry) (route : Fwd2Row) :
    List RouteEntry :=
  let ip_len := if ipv6 then 16 else 4
  let dn := _extract_ip_netmask ntop ip_len route.dest_bytes
  let nh := _extract_ip_netmask ntop ip_len route.next_hop_bytes
  match r.dev_from_index route.ifIndex with
  | .error _ => routes
  | .ok iface =>
    if iface.ip = some "0.0.0.0" then routes
    else
      let metric := route.metric + (if ipv6 then iface.ipv6_metric else iface.ipv4_metric)
      if ipv6 then _append_route6 csel routes dn.1 dn.2 nh.1 iface lifaddr metric
      else routes ++ [RouteEntry.v4 (atol dn.1) (itom dn.2) nh.1 iface iface.ip metric]

/-- The builder _read_routes_c: the modern builder over a GetIpForwardTable2 snapshot,
for either address family.  atol and itom are the scapy.utils address
conversion collaborators, csel the candidate-source selection collaborator,
lifaddr the in6_getifaddr snapshot. -/
def _read_routes_c (ipv6 : Bool) (ntop : List Nat → String)
    (atol : String → Nat) (itom : Nat → Nat)
    (csel : String → Nat → List LifAddr → List String) (r : Registry)
    (lifaddr : List LifAddr) (table : List Fwd2Row) : List RouteEntry :=
  table.foldl (_route2_step ipv6 ntop atol itom csel r lifaddr) []

/-! ## read_routes and read_routes6 wrappers -/

/-- The warning message of the read_routes exception handler. -/
def ipv4_error_warning (e : String) : String :=
  "Error building scapy IPv4 routing table : " ++ e

/-- The warning message of the read_routes6 exception handler. -/
def ipv6_error_warning (e : String) : String :=
  "Error building scapy IPv6 routing table : " ++ e

/-- The configuration warning emitted when the IPv4 table is empty. -/
def no_ipv4_routes_warning : String :=
  "No default IPv4 routes found. Your Windows release may no be supported and you have to enter your routes manually"

/-- read_routes: select the builder by the platform-version flag, catch any
builder exception, and return the table together with the warnings
emitted.  The builder outcomes are passed in as Except values. -/
def read_routes (windows_xp : Bool)
    (v1_result c_result : Except String (List RouteEntry)) :
    List RouteEntry × List String :=
  match (if windows_xp then v1_result else c_result) with
  | .error e => ([], [ipv4_error_warning e])
  | .ok routes => (routes, if routes.isEmpty then [no_ipv4_routes_warning] else [])

/-- read_routes6: empty on Windows XP, otherwise the modern builder with
its exception handler. -/
def read_routes6 (windows_xp : Bool)
    (c6_result : Except String (List RouteEntry)) :
    List RouteEntry × List String :=
  if windows_xp then ([], [])
  else
    match c6_result with
    | .error e => ([], [ipv6_error_warning e])
    | .ok rs => (rs, [])

/-! ## Secondary address cache merge (tail of NetworkInterfaceDict.load) -/

/-- The guid normalisation applied to secondary-cache identifiers. -/
def normalize_npf_guid (g : String) : String :=
  str_replace (str_toUpper g) "\\DEVICE\\NPF_" ""

/-- The dummy record synthesized for a cache entry absent from the OS
enumeration. -/
def dummy_if_data (name guid : String) (ips : List String) : IfData :=
  { netid := none
    name := name
    description := "[Unknown] " ++ name
    win_index := -1
    guid := guid
    mac := "00:00:00:00:00:00"
    ipv4_metric := 0
    ipv6_metric := 0
    ips := ips
    invalid := some false }

/-- The conf.cache_iflist merge loop at the end of
NetworkInterfaceDict.load: one cache entry is (logical name, raw guid,
address list). -/
def load_cache (use_npcap : Bool) (devices : List String)
    (data : List (String × NetworkInterface))
    (cache_iflist : List (String × String × List String)) :
    List (String × NetworkInterface) :=
  cache_iflist.foldl (fun data entry =>
    let guid := normalize_npf_guid entry.2.1
    if (data.map Prod.fst).contains guid then data
    else data ++ [(guid,
      NetworkInterface.ofData use_npcap devices (dummy_if_data entry.1 guid entry.2.2))])
    data

/-! ## Concrete states used by witnesses and counterexamples -/

def cfgNoNpcap : WifiConf := ⟨false, none⟩

def cfgNpcap : WifiConf := ⟨true, none⟩

def ifaceLo : NetworkInterface := { name := LOOPBACK_NAME, guid := "LOOPGUID" }

def ifaceEth : NetworkInterface :=
  { name := "Ethernet", description := "Intel Adapter", guid := "GA",
    ip := some "192.168.1.50", ipv4_metric := 10, ipv6_metric := 20, win_index := 7 }

def ifaceWifi : NetworkInterface := { name := "WiFi", guid := "GW", raw80211 := some true }

def ifaceWifiFail : NetworkInterface := { ifaceWifi with cache_mode := some false }

def ifaceWifiOk : NetworkInterface := { ifaceWifi with cache_mode := some true }

def ifaceNoCache : NetworkInterface := { name := "WiFi2", guid := "GX" }

def regW1 : Registry := ⟨[("GA", ifaceEth)], none⟩

def rowW1 : FwdRow := ⟨7, 0, 4294967040, 3232235777, 256⟩

def routeW1 : RouteEntry :=
  RouteEntry.v4 0 4294967040 "192.168.1.1" ifaceEth (some "192.168.1.50") 266

def regW7 : Registry := ⟨[("GA", ifaceEth)], some ifaceLo⟩

def ifaceInv : NetworkInterface := { name := "Dead", invalid := true, pcap_name := some "stale" }

def loopbackData : IfData :=
  { netid := some LOOPBACK_NAME, name := "lo0", description := "Loopback Pseudo-Interface",
    win_index := 1, guid := "GLOOP", mac := "aa:bb:cc:dd:ee:ff",
    ipv4_metric := 0, ipv6_metric := 0, ips := ["10.0.0.1"], invalid := some false }

def ethData : IfData :=
  { netid := none, name := "eth0", description := "Intel Adapter", win_index := 5,
    guid := "GAAA", mac := "", ipv4_metric := 0, ipv6_metric := 0,
    ips := [], invalid := none }

def ifaceA : NetworkInterface := NetworkInterface.ofData false ["devGAAA"] ethData

def dataA : List (String × NetworkInterface) := [("GAAA", ifaceA)]

def cacheB : List (String × String × List String) := [("eth0", "GBBB", [])]

/-! ## Helper lemmas -/

theorem foldl_append_of_step {α β : Type} (f : List α → β → List α)
    (hf : ∀ acc x, f acc x = acc ++ f [] x) (l : List β) (init : List α) :
    l.foldl f init = init ++ l.foldl f [] := by
  induction l generalizing init with
  | nil => simp
  | cons x t ih =>
    simp only [List.foldl_cons]
    rw [ih (f init x), hf init x, ih (f [] x), List.append_assoc]

theorem mem_foldl_of_step {α β : Type} (f : List α → β → List α)
    (hf : ∀ acc x, f acc x = acc ++ f [] x) (l : List β) (e : α) :
    e ∈ l.foldl f [] ↔ ∃ x ∈ l, e ∈ f [] x := by
  induction l with
  | nil => simp
  | cons x t ih =>
    simp only [List.foldl_cons]
    rw [foldl_append_of_step f hf t (f [] x), List.mem_append]
    constructor
    · rintro (h | h)
      · exact ⟨x, List.mem_cons_self x t, h⟩
      · obtain ⟨y, hy, he⟩ := ih.mp h
        exact ⟨y, List.mem_cons_of_mem x hy, he⟩
    · rintro ⟨y, hy, he⟩
      rcases List.mem_cons.mp hy with rfl | hy
      · exact Or.inl he
      · exact Or.inr (ih.mpr ⟨y, hy, he⟩)

theorem append_route6_eq_append (csel : String → Nat → List LifAddr → List String)
    (routes : List RouteEntry) (dpref : String) (dp : Nat) (nh : String)
    (iface : NetworkInterface) (lifaddr : List LifAddr) (metric : Nat) :
    _append_route6 csel routes dpref dp nh iface lifaddr metric
      = routes ++ _append_route6 csel [] dpref dp nh iface lifaddr metric := by
  unfold _append_route6
  split
  · simp
  · dsimp only
    split <;> simp
    split <;> simp_all

theorem mem_append_route6_nil (csel : String → Nat → List LifAddr → List String)
    (dpref : String) (dp : Nat) (nh : String) (iface : NetworkInterface)
    (lifaddr : List LifAddr) (metric : Nat) (e : RouteEntry)
    (h : e ∈ _append_route6 csel [] dpref dp nh iface lifaddr metric) :
    e.iface = iface ∧ e.metric = metric := by
  unfold _append_route6 at h
  split at h
  · simp at h
  · dsimp only at h
    split at h
    · simp at h
      subst h
      exact ⟨rfl, rfl⟩
    · simp at h
      obtain ⟨-, he⟩ := h
      subst he
      exact ⟨rfl, rfl⟩

theorem route4_v1_step_eq_append (extract_ip : Nat → String) (r : Registry)
    (acc : List RouteEntry) (row : FwdRow) :
    _route4_v1_step extract_ip r acc row = acc ++ _route4_v1_step extract_ip r [] row := by
  unfold _route4_v1_step
  cases h : r.dev_from_index row.ifIndex with
  | error err => simp
  | ok iface =>
    dsimp only
    split <;> simp

theorem mem_route4_v1_step_nil (extract_ip : Nat → String) (r : Registry)
    (row : FwdRow) (e : RouteEntry)
    (h : e ∈ _route4_v1_step extract_ip r [] row) :
    r.dev_from_index row.ifIndex = .ok e.iface ∧
      e.metric = row.metric + e.iface.ipv4_metric := by
  unfold _route4_v1_step at h
  cases hd : r.dev_from_index row.ifIndex with
  | error err => rw [hd] at h; simp at h
  | ok iface =>
    rw [hd] at h
    dsimp only at h
    split at h
    · simp at h
    · simp at h
      subst h
      exact ⟨rfl, rfl⟩

theorem route2_step_eq_append (ipv6 : Bool) (ntop : List Nat → String)
    (atol : String → Nat) (itom : Nat → Nat)
    (csel : String → Nat → List LifAddr → List String) (r : Registry)
    (lifaddr : List LifAddr) (acc : List RouteEntry) (row : Fwd2Row) :
    _route2_step ipv6 ntop atol itom csel r lifaddr acc row
      = acc ++ _route2_step ipv6 ntop atol itom csel r lifaddr [] row := by
  unfold _route2_step
  cases hd : r.dev_from_index row.ifIndex with
  | error err => simp
  | ok iface =>
    dsimp only
    split
    · simp
    · cases ipv6 with
      | false => simp
      | true => exact append_route6_eq_append _ _ _ _ _ _ _ _

theorem mem_route2_step_nil (ipv6 : Bool) (ntop : List Nat → String)
    (atol : String → Nat) (itom : Nat → Nat)
    (csel : String → Nat → List LifAddr → List String) (r : Registry)
    (lifaddr : List LifAddr) (row : Fwd2Row) (e : RouteEntry)
    (h : e ∈ _route2_step ipv6 ntop atol itom csel r lifaddr [] row) :
    r.dev_from_index row.ifIndex = .ok e.iface ∧
      e.metric = row.metric + (if ipv6 then e.iface.ipv6_metric else e.iface.ipv4_metric) := by
  unfold _route2_step at h
  cases hd : r.dev_from_index row.ifIndex with
  | error err => rw [hd] at h; simp at h
  | ok iface =>
    rw [hd] at h
    dsimp only at h
    split at h
    · simp at h
    · cases ipv6 with
      | false =>
        simp at h
        subst h
        exact ⟨rfl, rfl⟩
      | true =>
        simp at h ⊢
        obtain ⟨h1, h2⟩ := mem_append_route6_nil _ _ _ _ _ _ _ _ h
        constructor
        · rw [h1]
        · rw [h2, h1]

/-! ## Claim theorems -/

/-- C1: every route that survives into a routing table built by the route
table builders has effective metric equal to the raw metric of the forward
table record it came from plus the owning interface metric for the address
family: ipv6_metric when building the IPv6 table, ipv4_metric when
building the IPv4 table, in both the modern (GetIpForwardTable2) and the
legacy (GetIpForwardTable) builder. -/
theorem routes_effective_metric :
    (∀ (ipv6 : Bool) (ntop : List Nat → String) (atol : String → Nat)
        (itom : Nat → Nat) (csel : String → Nat → List LifAddr → List String)
        (r : Registry) (lifaddr : List LifAddr) (table : List Fwd2Row)
        (e : RouteEntry),
        e ∈ _read_routes_c ipv6 ntop atol itom csel r lifaddr table →
        ∃ row ∈ table, r.dev_from_index row.ifIndex = .ok e.iface ∧
          e.metric = row.metric +
            (if ipv6 then e.iface.ipv6_metric else e.iface.ipv4_metric)) ∧
    (∀ (extract_ip : Nat → String) (r : Registry) (table : List FwdRow)
        (e : RouteEntry),
        e ∈ _read_routes_c_v1 extract_ip r table →
        ∃ row ∈ table, r.dev_from_index row.ifIndex = .ok e.iface ∧
          e.metric = row.metric + e.iface.ipv4_metric) := by
  constructor
  · intro ipv6 ntop atol itom csel r lifaddr table e he
    unfold _read_routes_c at he
    rw [mem_foldl_of_step _
      (fun acc row => route2_step_eq_append ipv6 ntop atol itom csel r lifaddr acc row)] at he
    obtain ⟨row, hrow, hmem⟩ := he
    exact ⟨row, hrow, mem_route2_step_nil _ _ _ _ _ _ _ _ _ hmem⟩
  · intro extract_ip r table e he
    unfold _read_routes_c_v1 at he
    rw [mem_foldl_of_step _
      (fun acc row => route4_v1_step_eq_append extract_ip r acc row)] at he
    obtain ⟨row, hrow, hmem⟩ := he
    exact ⟨row, hrow, mem_route4_v1_step_nil _ _ _ _ hmem⟩

/-- Witness for C1: a registry with one interface (index 7, ipv4_metric
10) and a forward-table record with raw metric 256 yields a route whose
effective metric is 266. -/
theorem routes_effective_metric_witness :
    ∃ row ∈ [rowW1], regW1.dev_from_index row.ifIndex = .ok routeW1.iface ∧
      routeW1.metric = row.metric + routeW1.iface.ipv4_metric :=
  routes_effective_metric.2 (fun _ => "192.168.1.1") regW1 [rowW1] routeW1 (by decide)

/-- C2: when building the IPv6 table, a route owned by the loopback
interface is omitted entirely when the destination is the unspecified
prefix, and otherwise its candidate source-address set is exactly the
singleton of the IPv6 loopback address; for a non-loopback route whose
candidate set computed by the selection collaborator over the locally
assigned addresses of the owning interface is empty, the route is
excluded from the output table. -/
theorem append_route6_selection (csel : String → Nat → List LifAddr → List String)
    (routes : List RouteEntry) (dpref : String) (dp : Nat) (nh : String)
    (iface : NetworkInterface) (lifaddr : List LifAddr) (metric : Nat) :
    (iface.name = LOOPBACK_NAME → dpref = "::" →
      _append_route6 csel routes dpref dp nh iface lifaddr metric = routes) ∧
    (iface.name = LOOPBACK_NAME → dpref ≠ "::" →
      _append_route6 csel routes dpref dp nh iface lifaddr metric
        = routes ++ [RouteEntry.v6 dpref dp nh iface ["::1"] metric]) ∧
    (iface.name ≠ LOOPBACK_NAME →
      csel dpref dp (lifaddr.filter (fun x => x.2.2 == iface)) = [] →
      _append_route6 csel routes dpref dp nh iface lifaddr metric = routes) := by
  refine ⟨?_, ?_, ?_⟩
  · intro h1 h2
    unfold _append_route6
    rw [if_pos ⟨h1, h2⟩]
  · intro h1 h2
    unfold _append_route6
    rw [if_neg (by simp [h1, h2])]
    dsimp only
    rw [if_pos h1]
    simp
  · intro h1 h2
    unfold _append_route6
    rw [if_neg (by simp [h1])]
    dsimp only
    rw [if_neg h1, h2]
    simp

/-- Witness for C2: the three cases at concrete inputs — the loopback
default route is dropped, a loopback non-default route gets candidate set
exactly the IPv6 loopback singleton, and a non-loopback route with empty
candidate set is dropped. -/
theorem append_route6_selection_witness :
    _append_route6 (fun _ _ _ => []) [] "::" 0 "::" ifaceLo [] 5 = [] ∧
    _append_route6 (fun _ _ _ => []) [] "2001:db8::" 32 "fe80::1" ifaceLo [] 5
      = [RouteEntry.v6 "2001:db8::" 32 "fe80::1" ifaceLo ["::1"] 5] ∧
    _append_route6 (fun _ _ _ => []) [] "2001:db8::" 32 "fe80::1" ifaceEth [] 5 = [] :=
  ⟨(append_route6_selection _ _ _ _ _ _ _ _).1 rfl rfl,
   (append_route6_selection _ _ _ _ _ _ _ _).2.1 rfl (by decide),
   (append_route6_selection _ _ _ _ _ _ _ _).2.2 (by decide) rfl⟩

theorem update_pcapdata_name (devices : List String) (i : NetworkInterface) :
    (i._update_pcapdata devices).name = i.name := by
  unfold NetworkInterface._update_pcapdata
  split
  · rfl
  · split <;> rfl

theorem update_pcapdata_description (devices : List String) (i : NetworkInterface) :
    (i._update_pcapdata devices).description = i.description := by
  unfold NetworkInterface._update_pcapdata
  split
  · rfl
  · split <;> rfl

theorem update_pcapdata_win_index (devices : List String) (i : NetworkInterface) :
    (i._update_pcapdata devices).win_index = i.win_index := by
  unfold NetworkInterface._update_pcapdata
  split
  · rfl
  · split <;> rfl

theorem update_name_mac_ip (u : Bool) (devices : List String) (i : NetworkInterface)
    (data : IfData)
    (hn : (if data.netid = some LOOPBACK_NAME then LOOPBACK_NAME else data.name)
      = LOOPBACK_NAME) (hu : u = true) :
    (NetworkInterface.update u devices i data).mac = "00:00:00:00:00:00" ∧
    (NetworkInterface.update u devices i data).ip = some "127.0.0.1" := by
  unfold NetworkInterface.update
  simp [update_pcapdata_name, hn, hu]

/-- C3 (amended): ismonitor returns the cached boolean when one is
present; otherwise it queries mode, compares the result to the monitor
literal, caches the comparison and returns it; when the capability check
fails because the interface does not support raw 802.11
(Scapy_Exception), it returns false instead of raising; but when the
capability check fails because Npcap is not the active backend, the
OSError propagates out of ismonitor. -/
theorem ismonitor_cache_and_capability (cfg : WifiConf) (helper_mode : String)
    (i : NetworkInterface) :
    (∀ b, i.cache_mode = some b →
      i.ismonitor cfg helper_mode = .ok (b, i, 0)) ∧
    (i.cache_mode = none → ∀ i1, i._check_npcap_requirement cfg = .ok i1 →
      i.ismonitor cfg helper_mode
        = .ok (helper_mode == "monitor",
            { i1 with cache_mode := some (helper_mode == "monitor") }, 1)) ∧
    (i.cache_mode = none → ∀ i1,
      i._check_npcap_requirement cfg = .error (.scapyException, i1) →
      i.ismonitor cfg helper_mode = .ok (false, i1, 0)) ∧
    (i.cache_mode = none → ∀ i1,
      i._check_npcap_requirement cfg = .error (.osError, i1) →
      i.ismonitor cfg helper_mode = .error (.osError, i1)) := by
  refine ⟨?_, ?_, ?_, ?_⟩
  · intro b hb
    unfold NetworkInterface.ismonitor
    rw [hb]
  · intro hc i1 hcheck
    unfold NetworkInterface.ismonitor NetworkInterface.mode
    rw [hc, hcheck]
  · intro hc i1 hcheck
    unfold NetworkInterface.ismonitor NetworkInterface.mode
    rw [hc, hcheck]
  · intro hc i1 hcheck
    unfold NetworkInterface.ismonitor NetworkInterface.mode
    rw [hc, hcheck]

/-- C3 counterexample: with Npcap not the active backend and no cached
mode, ismonitor propagates the OSError raised by the capability check
instead of returning false — the claim that ismonitor never raises and
returns false on every capability failure is false on this state. -/
theorem ismonitor_raises_counterexample :
    ifaceNoCache.ismonitor cfgNoNpcap "monitor"
      = .error (.osError, ifaceNoCache) := rfl

/-- Witness for C3: the cached path answers from the cache with zero
helper queries, and the uncached path on a capable interface queries the
helper once, caches and returns the comparison. -/
theorem ismonitor_cache_and_capability_witness :
    ifaceWifiFail.ismonitor cfgNpcap "monitor" = .ok (false, ifaceWifiFail, 0) ∧
    ifaceWifi.ismonitor cfgNpcap "monitor" = .ok (true, ifaceWifiOk, 1) :=
  ⟨(ismonitor_cache_and_capability cfgNpcap "monitor" ifaceWifiFail).1 false rfl,
   by
    have h := (ismonitor_cache_and_capability cfgNpcap "monitor" ifaceWifi).2.1
      rfl ifaceWifi rfl
    exact h⟩

/-- C4 (amended): setmonitor updates the mode cache to the requested
intent — for enable the cache becomes the set-command result, for disable
its negation; and whenever setmonitor(true) completes without a
capability error and the set command reported success, an immediately
following ismonitor call returns true from the mode cache, issuing zero
helper-process queries.  (When the set command reports failure, the cache
becomes false and ismonitor returns false, see the counterexample.) -/
theorem setmonitor_cache_policy (cfg : WifiConf) (helper_set : String → String → Bool)
    (helper_mode : String) (i i1 : NetworkInterface) (res : Bool) (q : Nat) :
    (i.setmonitor cfg helper_set true = .ok (res, i1, q) →
      i1.cache_mode = some res) ∧
    (i.setmonitor cfg helper_set false = .ok (res, i1, q) →
      i1.cache_mode = some (!res)) ∧
    (i.setmonitor cfg helper_set true = .ok (true, i1, q) →
      i1.ismonitor cfg helper_mode = .ok (true, i1, 0)) := by
  refine ⟨?_, ?_, ?_⟩
  · intro h
    unfold NetworkInterface.setmonitor NetworkInterface.setmode at h
    cases hc : i._check_npcap_requirement cfg with
    | error e => rw [hc] at h; simp at h
    | ok i0 =>
      rw [hc] at h
      simp at h
      obtain ⟨h1, h2, h3⟩ := h
      rw [← h2]
      simp [h1]
  · intro h
    unfold NetworkInterface.setmonitor NetworkInterface.setmode at h
    cases hc : i._check_npcap_requirement cfg with
    | error e => rw [hc] at h; simp at h
    | ok i0 =>
      rw [hc] at h
      simp at h
      obtain ⟨h1, h2, h3⟩ := h
      rw [← h2]
      simp [h1]
  · intro h
    unfold NetworkInterface.setmonitor NetworkInterface.setmode at h
    cases hc : i._check_npcap_requirement cfg with
    | error e => rw [hc] at h; simp at h
    | ok i0 =>
      rw [hc] at h
      simp at h
      obtain ⟨h1, h2, h3⟩ := h
      have hcache : i1.cache_mode = some true := by
        rw [← h2]
        simp [h1]
      unfold NetworkInterface.ismonitor
      rw [hcache]

/-- C4 counterexample: on a capable interface with no capability error,
a set command that reports failure makes setmonitor(true) cache false, and
the immediately following ismonitor returns false — not true as the claim
states. -/
theorem setmonitor_failure_counterexample :
    ifaceWifi.setmonitor cfgNpcap (fun _ _ => false) true
      = .ok (false, ifaceWifiFail, 1) ∧
    ifaceWifiFail.ismonitor cfgNpcap "monitor" = .ok (false, ifaceWifiFail, 0) :=
  ⟨rfl, rfl⟩

/-- Witness for C4: with a succeeding set command, setmonitor(true)
caches true and the immediately following ismonitor answers true from the
cache with zero helper queries. -/
theorem setmonitor_cache_policy_witness :
    ifaceWifiOk.cache_mode = some true ∧
    ifaceWifiOk.ismonitor cfgNpcap "monitor" = .ok (true, ifaceWifiOk, 0) :=
  ⟨(setmonitor_cache_policy cfgNpcap (fun _ _ => true) "monitor"
      ifaceWifi ifaceWifiOk true 1).1 rfl,
   (setmonitor_cache_policy cfgNpcap (fun _ _ => true) "monitor"
      ifaceWifi ifaceWifiOk true 1).2.2 rfl⟩

/-- C5 (amended): when the Npcap backend is active (conf.use_npcap), an
adapter record whose netid or name is the well-known loopback name yields,
after update, a NetworkInterface whose MAC is forced to the all-zero
string and whose primary IPv4 is forced to 127.0.0.1, regardless of the
OS-reported addresses.  (Without Npcap the forcing does not happen, see
the counterexample.) -/
theorem loopback_update_forced_with_npcap (devices : List String) (data : IfData)
    (h : data.netid = some LOOPBACK_NAME ∨ data.name = LOOPBACK_NAME) :
    (NetworkInterface.ofData true devices data).mac = "00:00:00:00:00:00" ∧
    (NetworkInterface.ofData true devices data).ip = some "127.0.0.1" := by
  have hn : (if data.netid = some LOOPBACK_NAME then LOOPBACK_NAME else data.name)
      = LOOPBACK_NAME := by
    rcases h with h | h
    · rw [if_pos h]
    · split
      · rfl
      · exact h
  exact update_name_mac_ip true devices {} data hn rfl

/-- C5 counterexample: the same loopback adapter record updated while
Npcap is not in use keeps the OS-reported MAC and takes its primary IPv4
from the OS-reported address list — the forcing claimed unconditionally
does not happen. -/
theorem loopback_update_counterexample :
    (NetworkInterface.ofData false ["devGLOOP"] loopbackData).mac = "aa:bb:cc:dd:ee:ff" ∧
    (NetworkInterface.ofData false ["devGLOOP"] loopbackData).ip = some "10.0.0.1" :=
  ⟨by decide, by decide⟩

/-- Witness for C5: the loopback record with Npcap active gets the forced
MAC and primary IPv4. -/
theorem loopback_update_forced_with_npcap_witness :
    (NetworkInterface.ofData true ["devGLOOP"] loopbackData).mac = "00:00:00:00:00:00" ∧
    (NetworkInterface.ofData true ["devGLOOP"] loopbackData).ip = some "127.0.0.1" :=
  loopback_update_forced_with_npcap ["devGLOOP"] loopbackData (Or.inl rfl)

/-- C6 (amended): every builder exception is caught at the top level of
read_routes and read_routes6, a warning identifying which table failed is
emitted, and an empty list is returned instead of propagating; the
configuration warning about an empty IPv4 table is surfaced exactly when
the IPv4 build completed without exception and produced an empty table
(after an exception, only the error warning is emitted); read_routes6
returns an empty table directly on Windows XP. -/
theorem read_routes_failure_semantics (xp : Bool)
    (v1r cr c6r : Except String (List RouteEntry)) (e : String) :
    ((if xp then v1r else cr) = .error e →
      read_routes xp v1r cr = ([], [ipv4_error_warning e])) ∧
    ((if xp then v1r else cr) = .ok [] →
      read_routes xp v1r cr = ([], [no_ipv4_routes_warning])) ∧
    (xp = false → c6r = .error e →
      read_routes6 xp c6r = ([], [ipv6_error_warning e])) ∧
    (read_routes6 true c6r = ([], [])) := by
  refine ⟨?_, ?_, ?_, ?_⟩
  · intro h
    simp [read_routes, h]
  · intro h
    simp [read_routes, h]
  · intro hxp h
    subst hxp
    simp [read_routes6, h]
  · rfl

/-- C6 counterexample: when the IPv4 builder raises, the resulting table
is empty yet the configuration warning about missing IPv4 routes is not
surfaced — only the error warning is — so the unconditional part of the
claim is false. -/
theorem read_routes_empty_no_config_warning :
    read_routes false (.ok []) (.error "boom")
      = ([], [ipv4_error_warning "boom"]) ∧
    no_ipv4_routes_warning ∉ (read_routes false (.ok []) (.error "boom")).2 :=
  ⟨rfl, by decide⟩

/-- Witness for C6: a failing IPv4 build on XP and a failing IPv6 build
each yield an empty table plus the warning naming the failed table. -/
theorem read_routes_failure_semantics_witness :
    read_routes true (.error "fail") (.ok []) = ([], [ipv4_error_warning "fail"]) ∧
    read_routes6 false (.error "fail6") = ([], [ipv6_error_warning "fail6"]) :=
  ⟨(read_routes_failure_semantics true (.error "fail") (.ok []) (.ok []) "fail").1 rfl,
   (read_routes_failure_semantics false (.ok []) (.ok []) (.error "fail6") "fail6").2.2.1
      rfl rfl⟩

/-- C7: dev_from_index returns the first registry entry carrying the
requested numeric index; when a well-known loopback interface is
registered, index 1 never fails — the loopback is returned when no entry
has index 1; any other index with no matching entry fails with the
lookup error. -/
theorem dev_from_index_loopback_fallback (r : Registry) (i : Int) :
    (∀ e, r.values.find? (fun x => x.win_index == 1) = some e →
      r.dev_from_index 1 = .ok e) ∧
    (r.values.find? (fun x => x.win_index == 1) = none →
      ∀ lb, r.loopback = some lb → r.dev_from_index 1 = .ok lb) ∧
    (i ≠ 1 → r.values.find? (fun x => x.win_index == i) = none →
      r.dev_from_index i
        = .error ("Unknown network interface index " ++ toString i)) := by
  refine ⟨?_, ?_, ?_⟩
  · intro e he
    unfold Registry.dev_from_index
    rw [he]
  · intro hn lb hlb
    unfold Registry.dev_from_index
    rw [hn]
    rw [if_pos rfl, hlb]
  · intro hne hn
    unfold Registry.dev_from_index
    rw [hn, if_neg hne]

/-- Witness for C7: a registry whose sole entry has index 7 and whose
loopback reference is set answers index 1 with the loopback, and fails on
index 9. -/
theorem dev_from_index_loopback_fallback_witness :
    regW7.dev_from_index 1 = .ok ifaceLo ∧
    regW7.dev_from_index 9
      = .error ("Unknown network interface index " ++ toString (9 : Int)) :=
  ⟨(dev_from_index_loopback_fallback regW7 9).2.1 (by decide) ifaceLo rfl,
   (dev_from_index_loopback_fallback regW7 9).2.2 (by decide) (by decide)⟩

/-- C8: the MAC normalisation of a raw adapter record yields the empty
string whenever the reported physical-address length differs from 6, and
the canonical colon-hex rendering of the six address bytes when the
length is 6. -/
theorem get_mac_normalization (bs : List Nat) (len : Nat) :
    (len ≠ 6 → _get_mac bs len = "") ∧
    (bs.length = 6 → _get_mac bs 6 = String.intercalate ":" (bs.map hex2)) := by
  constructor
  · intro h
    unfold _get_mac
    rw [if_pos h]
  · intro h
    unfold _get_mac
    rw [if_neg (by simp)]
    unfold str2mac
    rw [← h, List.take_length]

/-- Witness for C8: a 3-byte record normalises to the empty string and a
6-byte record to its colon-hex rendering. -/
theorem get_mac_normalization_witness :
    _get_mac [0, 17, 34] 3 = "" ∧
    _get_mac [0, 17, 34, 51, 68, 255] 6
      = String.intercalate ":" ([0, 17, 34, 51, 68, 255].map hex2) :=
  ⟨(get_mac_normalization [0, 17, 34] 3).1 (by decide),
   (get_mac_normalization [0, 17, 34, 51, 68, 255] 6).2 rfl⟩

/-- C10: pcapname answers None for an interface entity whose invalid flag
is set (instead of raising or returning a stale device name), and for a
logical name that resolves through the registry it returns the resolved
capture-device name of that entry. -/
theorem pcapname_invalid_and_name (use_pcap : Bool) (r : Registry) :
    (∀ d : NetworkInterface, d.invalid = true →
      pcapname use_pcap r (.inl d) = .ok none) ∧
    (∀ s iface, r.dev_from_name s = .ok iface →
      pcapname use_pcap r (.inr s) = .ok iface.pcap_name) := by
  constructor
  · intro d hd
    unfold pcapname
    simp [NetworkInterface.is_invalid, hd]
  · intro s iface h
    unfold pcapname
    dsimp only
    rw [h]

/-- Witness for C10: an invalid entity (with a stale recorded device
name) yields None, and a registered logical name yields the capture
device of its entry. -/
theorem pcapname_invalid_and_name_witness :
    pcapname false regW7 (.inl ifaceInv) = .ok none ∧
    pcapname false regW7 (.inr "Ethernet") = .ok ifaceEth.pcap_name :=
  ⟨(pcapname_invalid_and_name false regW7).1 ifaceInv rfl,
   (pcapname_invalid_and_name false regW7).2 "Ethernet" ifaceEth rfl⟩

theorem update_name (u : Bool) (devices : List String) (i : NetworkInterface)
    (data : IfData) :
    (NetworkInterface.update u devices i data).name
      = (if data.netid = some LOOPBACK_NAME then LOOPBACK_NAME else data.name) := by
  unfold NetworkInterface.update
  dsimp only
  repeat' split
  all_goals simp [update_pcapdata_name]

theorem update_description (u : Bool) (devices : List String) (i : NetworkInterface)
    (data : IfData) :
    (NetworkInterface.update u devices i data).description = data.description := by
  unfold NetworkInterface.update
  dsimp only
  repeat' split
  all_goals simp [update_pcapdata_description]

theorem update_win_index (u : Bool) (devices : List String) (i : NetworkInterface)
    (data : IfData) :
    (NetworkInterface.update u devices i data).win_index = data.win_index := by
  unfold NetworkInterface.update
  dsimp only
  repeat' split
  all_goals simp [update_pcapdata_win_index]

theorem ofData_dummy_name (u : Bool) (d : List String) (name g : String)
    (ips : List String) :
    (NetworkInterface.ofData u d (dummy_if_data name g ips)).name = name := by
  unfold NetworkInterface.ofData
  rw [update_name]
  simp [dummy_if_data]

theorem load_cache_cons (u : Bool) (d : List String)
    (D : List (String × NetworkInterface)) (e : String × String × List String)
    (t : List (String × String × List String)) :
    load_cache u d D (e :: t)
      = load_cache u d
          (if (D.map Prod.fst).contains (normalize_npf_guid e.2.1) then D
           else D ++ [(normalize_npf_guid e.2.1,
             NetworkInterface.ofData u d
               (dummy_if_data e.1 (normalize_npf_guid e.2.1) e.2.2))]) t := rfl

theorem load_cache_extends (u : Bool) (d : List String) :
    ∀ (post : List (String × String × List String))
      (D : List (String × NetworkInterface)),
      ∃ extra, load_cache u d D post = D ++ extra := by
  intro post
  induction post with
  | nil =>
    intro D
    exact ⟨[], by simp [load_cache]⟩
  | cons e t ih =>
    intro D
    rw [load_cache_cons]
    split
    · exact ih D
    · obtain ⟨extra, hx⟩ := ih (D ++ [(normalize_npf_guid e.2.1,
        NetworkInterface.ofData u d (dummy_if_data e.1 (normalize_npf_guid e.2.1) e.2.2))])
      exact ⟨[(normalize_npf_guid e.2.1,
        NetworkInterface.ofData u d (dummy_if_data e.1 (normalize_npf_guid e.2.1) e.2.2))]
          ++ extra, by rw [hx, List.append_assoc]⟩

/-- C9 (amended): for a cache entry whose normalized identifier is absent
from the registry built so far and whose logical name is not borne by any
earlier registry entry (by name or description), the merge loop appends a
synthesized interface with index -1 and description prefixed by the
Unknown marker, and dev_from_name with the logical name returns exactly
that synthesized interface.  (When an earlier entry bears the same name,
dev_from_name returns the earlier entry instead, see the
counterexample.) -/
theorem cache_iface_round_trip (u : Bool) (d : List String)
    (data : List (String × NetworkInterface))
    (pre post : List (String × String × List String))
    (name g0 : String) (ips : List String)
    (h1 : ∀ p ∈ load_cache u d data pre, p.2.name ≠ name ∧ p.2.description ≠ name)
    (h2 : normalize_npf_guid g0 ∉ (load_cache u d data pre).map Prod.fst) :
    Registry.dev_from_name
        ⟨load_cache u d data (pre ++ (name, g0, ips) :: post), none⟩ name
      = .ok (NetworkInterface.ofData u d
          (dummy_if_data name (normalize_npf_guid g0) ips)) ∧
    (NetworkInterface.ofData u d
        (dummy_if_data name (normalize_npf_guid g0) ips)).win_index = -1 ∧
    (NetworkInterface.ofData u d
        (dummy_if_data name (normalize_npf_guid g0) ips)).description
      = "[Unknown] " ++ name := by
  refine ⟨?_, ?_, ?_⟩
  · have hsplit : load_cache u d data (pre ++ (name, g0, ips) :: post)
        = load_cache u d (load_cache u d data pre) ((name, g0, ips) :: post) := by
      unfold load_cache
      exact List.foldl_append _ _ pre _
    have hc : ((load_cache u d data pre).map Prod.fst).contains
        (normalize_npf_guid g0) = false := by
      by_contra hcon
      rw [Bool.not_eq_false, List.contains_iff_exists_mem_beq] at hcon
      obtain ⟨x, hx, hxe⟩ := hcon
      rw [beq_iff_eq] at hxe
      exact h2 (hxe ▸ hx)
    have hstep : load_cache u d (load_cache u d data pre) ((name, g0, ips) :: post)
        = load_cache u d ((load_cache u d data pre)
            ++ [(normalize_npf_guid g0,
              NetworkInterface.ofData u d
                (dummy_if_data name (normalize_npf_guid g0) ips))]) post := by
      have hcond : ¬(((load_cache u d data pre).map Prod.fst).contains
          (normalize_npf_guid g0) = true) := by
        rw [hc]
        simp
      rw [load_cache_cons]
      rw [if_neg hcond]
    obtain ⟨extra, hextra⟩ := load_cache_extends u d post
      ((load_cache u d data pre)
        ++ [(normalize_npf_guid g0,
          NetworkInterface.ofData u d (dummy_if_data name (normalize_npf_guid g0) ips))])
    rw [hsplit, hstep, hextra]
    have hD : ((load_cache u d data pre).map Prod.snd).find?
        (fun x => x.name == name || x.description == name) = none := by
      rw [List.find?_eq_none]
      intro x hx
      obtain ⟨p, hp, rfl⟩ := List.mem_map.mp hx
      obtain ⟨hn, hd2⟩ := h1 p hp
      simp [hn, hd2]
    unfold Registry.dev_from_name Registry.values
    dsimp only
    rw [List.map_append, List.map_append, List.find?_append, List.find?_append, hD]
    simp [ofData_dummy_name]
  · unfold NetworkInterface.ofData
    rw [update_win_index]
    rfl
  · unfold NetworkInterface.ofData
    rw [update_description]
    rfl

/-- C9 counterexample: the registry already holds an interface named eth0
(index 5); a cache entry with the same logical name but a fresh
identifier is synthesized and appended (the key list shows both
identifiers), yet dev_from_name answers the pre-existing interface of
index 5, not the synthesized one of index -1 — the round trip claimed
unconditionally is false. -/
theorem cache_iface_shadowed_counterexample :
    Registry.dev_from_name ⟨load_cache false [] dataA cacheB, none⟩ "eth0"
      = .ok ifaceA ∧
    ifaceA.win_index = 5 ∧
    (load_cache false [] dataA cacheB).map Prod.fst = ["GAAA", "GBBB"] :=
  ⟨rfl, rfl, by decide⟩

/-- Witness for C9: merging a single cache entry into an empty registry
makes its synthesized interface retrievable by the logical name, with
index -1 and the Unknown description marker. -/
theorem cache_iface_round_trip_witness :
    Registry.dev_from_name
        ⟨load_cache false [] [] [("napa", "GCCC", ["10.0.0.9"])], none⟩ "napa"
      = .ok (NetworkInterface.ofData false []
          (dummy_if_data "napa" (normalize_npf_guid "GCCC") ["10.0.0.9"])) ∧
    (NetworkInterface.ofData false []
        (dummy_if_data "napa" (normalize_npf_guid "GCCC") ["10.0.0.9"])).win_index = -1 ∧
    (NetworkInterface.ofData false []
        (dummy_if_data "napa" (normalize_npf_guid "GCCC") ["10.0.0.9"])).description
      = "[Unknown] " ++ "napa" :=
  cache_iface_round_trip false [] [] [] [] "napa" "GCCC" ["10.0.0.9"]
    (by simp [load_cache]) (by simp [load_cache])
